import Mathlib

/-!
# Verification of the token-authentication core of `backend/app/services/auth.py`

Shallow embedding of the authentication module: JWT issuance
(`create_access_token`, `create_refresh_token`), decoding (`decode_token`),
the identity-resolution dependency chain (`get_current_user`,
`get_current_active_user`), password hashing (`get_password_hash`,
`verify_password`), and module-level configuration loading.

Modelling conventions:
* Clock values are explicit parameters: `nowMs` (epoch milliseconds, the
  resolution relevant to the issuance jitter) for issuance and `nowSec`
  (epoch seconds, the resolution at which the JWT library compares `exp`)
  for decoding.
* Randomness is explicit: the `random.randint(1, 999)` jitter draw and the
  bcrypt salt are parameters of the functions that consume them.
* The `python-jose` library is modelled per its documented behaviour:
  `jwt.encode` converts `datetime` claims with
  `calendar.timegm(dt.utctimetuple())`, i.e. truncates them to whole epoch
  seconds; `jwt.decode` verifies the signature before validating claims, and
  with `verify_signature: False` it skips every claim validation; HMAC
  signing is deterministic, and signature verification succeeds exactly for
  the key the token was signed with (ideal MAC, no forgeries/collisions).
* A transported token string is either a well-formed JWT — determined by its
  payload and signing key, since encoding is deterministic and injective —
  or a malformed string that fails to parse.
* Python exceptions become `Except` / explicit error constructors; FastAPI
  `HTTPException`s raised by the module are the `AuthError` type below,
  with their status codes and `detail` strings given by `errorStatus` and
  `errorDetail`.
-/

/-- A Python value that can appear as the `sub` entry of the data dict passed
to the token creators (callers pass either an `int` user id or a string). -/
inductive PyVal where
  | vstr (s : String)
  | vint (n : Int)
deriving DecidableEq, Repr

/-- Python `str(...)` on a `sub` value. -/
def pyStr : PyVal → String
  | .vstr s => s
  | .vint n => toString n

/-- The JWT claims relevant to this module: `sub`, `type`, `exp`, `iat`.
`exp`/`iat` are epoch seconds, as produced by the JWT library's datetime
conversion. Absent claims are `none`. -/
structure Payload where
  sub : Option String
  type : Option String
  exp : Option Nat
  iat : Option Nat
deriving DecidableEq, Repr

/-- A transported token string. JWT encoding is deterministic and injective,
so a well-formed token is identified by its payload and the key it was
signed with; equality of `Token` values coincides with equality of the
underlying strings. `malformed s` is a string that does not parse as a JWT. -/
inductive Token where
  | malformed (s : String)
  | signed (payload : Payload) (key : String)
deriving DecidableEq, Repr

/-- Module-level configuration of auth.py (lines 22-25):
`SECRET_KEY = os.getenv("JWT_SECRET")` (`none` when the variable is unset),
`ACCESS_TOKEN_EXPIRE_MINUTES` (default 30), `REFRESH_TOKEN_EXPIRE_DAYS`
(default 7). The algorithm is fixed to the single configured HMAC scheme. -/
structure AuthConfig where
  secretKey : Option String
  accessTokenExpireMinutes : Nat
  refreshTokenExpireDays : Nat
deriving DecidableEq, Repr

/-- Errors raised at module import time: `int(os.getenv(...))` raises
`ValueError` on a non-numeric value. -/
inductive InitError where
  | invalidIntEnv (name : String)
deriving DecidableEq, Repr

/-- Decimal digit value of a character, `none` for a non-digit. -/
def digitVal? (c : Char) : Option Nat :=
  if 48 ≤ c.toNat ∧ c.toNat ≤ 57 then some (c.toNat - 48) else none

/-- Value of a non-empty all-digit character sequence, `none` otherwise. -/
def digitsVal? (cs : List Char) : Option Nat :=
  match cs with
  | [] => none
  | _ =>
    cs.foldl
      (fun acc c =>
        match acc, digitVal? c with
        | some a, some d => some (a * 10 + d)
        | _, _ => none)
      (some 0)

/-- Python `int(s)` on a string: an optional sign followed by decimal
digits, `ValueError` (here `none`) otherwise. (Python additionally strips
surrounding whitespace and allows `_` separators between digits; those
inputs do not occur in this development.) -/
def pyInt? (s : String) : Option Int :=
  match s.data with
  | '-' :: rest => (digitsVal? rest).map (fun n => -(n : Int))
  | '+' :: rest => (digitsVal? rest).map (fun n => (n : Int))
  | cs => (digitsVal? cs).map (fun n => (n : Int))

/-- `int(os.getenv(name, default))`: the default when the variable is unset,
otherwise the parsed integer, otherwise a `ValueError` at import time. -/
def parseIntEnv (env : String → Option String) (name : String) (dflt : Nat) :
    Except InitError Nat :=
  match env name with
  | none => .ok dflt
  | some s =>
    match digitsVal? s.data with
    | none => .error (.invalidIntEnv name)
    | some n => .ok n

/-- Module import of auth.py over an environment `env` (lines 18-25).
`SECRET_KEY` is read with a plain `os.getenv` — a missing `JWT_SECRET` does
NOT abort the import; only a non-numeric TTL variable does (Python `int()`
raising at module load). -/
def initAuthModule (env : String → Option String) : Except InitError AuthConfig :=
  match parseIntEnv env "JWT_ACCESS_TOKEN_EXPIRE_MINUTES" 30 with
  | .error e => .error e
  | .ok a =>
    match parseIntEnv env "JWT_REFRESH_TOKEN_EXPIRE_DAYS" 7 with
    | .error e => .error e
    | .ok r =>
      .ok { secretKey := env "JWT_SECRET",
            accessTokenExpireMinutes := a,
            refreshTokenExpireDays := r }

/-- The `HTTPException`s raised by the module, one constructor per raise
site; see `errorStatus` / `errorDetail` for the HTTP status and `detail`. -/
inductive AuthError where
  | configError
  | invalidTokenType (expected : String)
  | tokenExpired
  | couldNotValidate
  | missingUserId
  | invalidUserIdFormat
  | databaseError
  | inactiveUser
  | inactiveUser400
deriving DecidableEq, Repr

/-- HTTP status code of each raise site. -/
def errorStatus : AuthError → Nat
  | .configError => 500
  | .databaseError => 500
  | .inactiveUser400 => 400
  | _ => 401

/-- The `detail` string of each raise site. -/
def errorDetail : AuthError → String
  | .configError => "Authentication system configuration error"
  | .invalidTokenType t => "Invalid token type. Expected " ++ t ++ " token."
  | .tokenExpired => "Token has expired"
  | .couldNotValidate => "Could not validate credentials"
  | .missingUserId => "Invalid token content: missing user identifier"
  | .invalidUserIdFormat => "Invalid user identifier format"
  | .databaseError => "Database error"
  | .inactiveUser => "Inactive user"
  | .inactiveUser400 => "Inactive user"

/-- The `exp` claim (epoch seconds) of an access token: base time plus the
TTL plus the `randint(1, 999)` millisecond jitter, truncated to whole
seconds by the JWT library's datetime conversion. `expiresDeltaMs = some 0`
falls through to the default TTL because `timedelta(0)` is falsy in the
`if expires_delta:` test (line 82). -/
def accessExpSec (cfg : AuthConfig) (expiresDeltaMs : Option Nat)
    (nowMs randMs : Nat) : Nat :=
  match expiresDeltaMs with
  | some d =>
    if d = 0 then (nowMs + cfg.accessTokenExpireMinutes * 60000 + randMs) / 1000
    else (nowMs + d + randMs) / 1000
  | none => (nowMs + cfg.accessTokenExpireMinutes * 60000 + randMs) / 1000

/-- `create_access_token` (lines 66-95). `data` is the `sub` entry of the
caller's dict (coerced to a string when it is not one); `randMs` is the
`random.randint(1, 999)` draw, in milliseconds. Returns `none` when
`SECRET_KEY` is unset (`jwt.encode` raises on a `None` key). -/
def create_access_token (cfg : AuthConfig) (data : Option PyVal)
    (expiresDeltaMs : Option Nat) (nowMs randMs : Nat) : Option Token :=
  match cfg.secretKey with
  | none => none
  | some key =>
    some (Token.signed
      { sub := data.map pyStr,
        type := some "access",
        exp := some (accessExpSec cfg expiresDeltaMs nowMs randMs),
        iat := some (nowMs / 1000) } key)

/-- `create_refresh_token` (lines 97-122): same shape with the day-based TTL
and type `"refresh"`. -/
def create_refresh_token (cfg : AuthConfig) (data : Option PyVal)
    (nowMs randMs : Nat) : Option Token :=
  match cfg.secretKey with
  | none => none
  | some key =>
    some (Token.signed
      { sub := data.map pyStr,
        type := some "refresh",
        exp := some ((nowMs + cfg.refreshTokenExpireDays * 86400000 + randMs) / 1000),
        iat := some (nowMs / 1000) } key)

/-- The type-mismatch test of lines 148 and 169:
`if token_type and payload.get("type") != token_type`. An empty expected
type is falsy in Python and disables the check; a missing `type` claim
(`None`) compares unequal to any expected type. -/
def typeMismatch (expected actual : Option String) : Bool :=
  match expected with
  | none => false
  | some tt => if tt = "" then false else if actual = some tt then false else true

/-- Expiry test of the JWT library's claim validation: fails iff an `exp`
claim is present and strictly below the current time (leeway 0). -/
def expired (p : Payload) (nowSec : Nat) : Bool :=
  match p.exp with
  | none => false
  | some e => e < nowSec

/-- `decode_token` (lines 124-217).

Order of effects, as in the source: the missing/empty-secret guard
(`if not SECRET_KEY`, line 129); the unverified pre-check decode
(signature and expiry verification off — a parse failure is swallowed by
the inner `except` and a type mismatch raises `InvalidTokenType` before any
signature check, lines 136-159); the fully verified decode, in which the
library checks the signature first (wrong key -> `JWTError`, caught at line
211 as the credential-invalid error) and the `exp` claim second
(`ExpiredSignatureError`, caught at line 179); then the repeated type check
of lines 169-176 and the return of the payload. The `JWTClaimsError`
branches (lines 186-210) are unreachable here because every `sub` claim in
the model is already a string. -/
def decode_token (cfg : AuthConfig) (token : Token) (tokenType : Option String)
    (nowSec : Nat) : Except AuthError Payload :=
  match cfg.secretKey with
  | none => .error .configError
  | some key =>
    if key = "" then .error .configError
    else
      match token with
      | .malformed _ => .error .couldNotValidate
      | .signed payload sigKey =>
        if typeMismatch tokenType payload.type then
          .error (.invalidTokenType (tokenType.getD ""))
        else if sigKey ≠ key then
          .error .couldNotValidate
        else if expired payload nowSec then
          .error .tokenExpired
        else if typeMismatch tokenType payload.type then
          .error (.invalidTokenType (tokenType.getD ""))
        else
          .ok payload

/-- The user columns this module reads (`app.models.user.User`). -/
structure UserRec where
  id : Int
  is_active : Bool
deriving DecidableEq, Repr

/-- `get_current_user` (lines 219-290). The database is a total lookup
`db : Int → Option UserRec` (exceptions from the store itself are outside
the model).

The not-found branch: the `raise HTTPException(..., detail="User not
found")` of line 270 sits inside the `try` of lines 266-281 whose
`except Exception` clause catches `HTTPException` (a subclass of
`Exception`), so the observable result of a missing user record is the
500 `"Database error"` response of line 277, not the 401 `"User not
found"` one. -/
def get_current_user (cfg : AuthConfig) (token : Token) (nowSec : Nat)
    (db : Int → Option UserRec) : Except AuthError UserRec :=
  match decode_token cfg token (some "access") nowSec with
  | .error e => .error e
  | .ok payload =>
    match payload.sub with
    | none => .error .missingUserId
    | some s =>
      match pyInt? s with
      | none => .error .invalidUserIdFormat
      | some uid =>
        match db uid with
        | none => .error .databaseError
        | some user =>
          if user.is_active then .ok user else .error .inactiveUser

/-- `get_current_active_user` (lines 292-296): re-checks `is_active`,
raising a plain 400 `"Inactive user"`. -/
def get_current_active_user (user : UserRec) : Except AuthError UserRec :=
  if user.is_active then .ok user else .error .inactiveUser400

example : accessExpSec ⟨some "k", 30, 7⟩ none 0 1 = 1800 := rfl
example : accessExpSec ⟨some "k", 30, 7⟩ none 123456 2 = 1923 := rfl
example : typeMismatch (some "access") (some "refresh") = true := rfl
example : typeMismatch none none = false := rfl

/-! ## Password hashing (`verify_password`, `get_password_hash`, lines 30-64)

The `bcrypt` library is modelled per its documented behaviour:
* the algorithm uses only the first 72 bytes of the password — the rest is
  ignored (`bcryptTruncate`);
* `hashpw` derives a digest from the truncated password and the salt and
  returns a modular-crypt string that embeds the salt;
* `checkpw` parses the salt out of the stored hash, recomputes `hashpw` of
  the candidate password with that salt, and compares the resulting strings;
  an unparseable stored hash raises `ValueError("Invalid salt")`.
The digest itself is idealised as collision-free (injective in the
truncated password), matching the spec's "except hash-collision
probability ≈ 0" proviso; the concrete digest encoding below is an
arbitrary injective block code, chosen for provability, not fidelity of the
byte format. -/

/-- UTF-8 encoding of one character (byte values as naturals). -/
def utf8EncodeCharNat (c : Char) : List Nat :=
  let n := c.toNat
  if n < 128 then [n]
  else if n < 2048 then [192 + n / 64, 128 + n % 64]
  else if n < 65536 then [224 + n / 4096, 128 + (n / 64) % 64, 128 + n % 64]
  else [240 + n / 262144, 128 + (n / 4096) % 64, 128 + (n / 64) % 64, 128 + n % 64]

/-- UTF-8 encoding of a string, as `str.encode("utf-8")` (byte values as
naturals). -/
def pwBytes (s : String) : List Nat :=
  (s.data.map utf8EncodeCharNat).flatten

/-- bcrypt ignores every byte of the password beyond the 72nd. -/
def bcryptTruncate (pw : List Nat) : List Nat := pw.take 72

/-- Injective encoding of the digest into characters: each byte becomes a
block of that many `*` characters closed by a `,`. -/
def digestChars (d : List Nat) : List Char :=
  (d.map (fun n => List.replicate n '*' ++ [','])).flatten

/-- The characters of `bcrypt.hashpw(pw, salt)`: prefix `$2b$12$`, then the
salt, then a `$` separator, then the digest of the truncated password. -/
def hashpwChars (pw : List Nat) (salt : List Char) : List Char :=
  '$' :: '2' :: 'b' :: '$' :: '1' :: '2' :: '$' ::
    (salt ++ '$' :: digestChars (bcryptTruncate pw))

/-- Split a character list at its first `$`. -/
def splitAtDollar : List Char → Option (List Char × List Char)
  | [] => none
  | c :: cs =>
    if c = '$' then some ([], cs)
    else (splitAtDollar cs).map (fun p => (c :: p.1, p.2))

/-- Parse a stored hash into its salt and digest parts; `none` on a
malformed hash string. -/
def parseBcrypt : List Char → Option (List Char × List Char)
  | '$' :: '2' :: 'b' :: '$' :: '1' :: '2' :: '$' :: rest => splitAtDollar rest
  | _ => none

/-- A salt as produced by `bcrypt.gensalt()`: never contains the `$`
field separator. -/
def validSalt (salt : List Char) : Prop := '$' ∉ salt

instance (salt : List Char) : Decidable (validSalt salt) := by
  unfold validSalt; infer_instance

/-- `bcrypt.hashpw(pw, salt)` decoded back to a string (line 55/58). -/
def bcrypt_hashpw (pw : List Nat) (salt : List Char) : String :=
  String.mk (hashpwChars pw salt)

/-- `bcrypt.checkpw(pw, stored)`: raises `ValueError("Invalid salt")` on an
unparseable stored hash, otherwise recomputes the hash with the stored salt
and compares the full strings. -/
def bcrypt_checkpw (pw : List Nat) (stored : String) : Except String Bool :=
  match parseBcrypt stored.data with
  | none => .error "Invalid salt"
  | some (salt, _) => .ok (hashpwChars pw salt = stored.data)

/-- `get_password_hash` (lines 46-64), with the random salt explicit. The
`except` branch (HTTP 500 `"Password processing error"`) is unreachable in
the model because the modelled `hashpw` is total. -/
def get_password_hash (password : String) (salt : List Char) : String :=
  bcrypt_hashpw (pwBytes password) salt

/-- `verify_password` (lines 30-44): encodes both arguments, calls
`bcrypt.checkpw`, and converts ANY exception into `False`. -/
def verify_password (plain_password hashed_password : String) : Bool :=
  match bcrypt_checkpw (pwBytes plain_password) hashed_password with
  | .ok b => b
  | .error _ => false

example : pwBytes "ab" = [97, 98] := rfl
example : verify_password "a" (get_password_hash "a" ['s', 'x']) = true := rfl
example : verify_password "a" (get_password_hash "b" ['s', 'x']) = false := rfl
example : verify_password "a" "garbage" = false := rfl

/-! ## Concrete fixtures used by the closed theorems and witnesses -/

/-- A configuration with the secret set (default TTLs). -/
def cfgK : AuthConfig :=
  { secretKey := some "k", accessTokenExpireMinutes := 30, refreshTokenExpireDays := 7 }

/-- A configuration whose environment lacked `JWT_SECRET`. -/
def cfgNoSecret : AuthConfig :=
  { secretKey := none, accessTokenExpireMinutes := 30, refreshTokenExpireDays := 7 }

/-- A refresh-type payload with a far-future expiry. -/
def payloadRefresh : Payload :=
  { sub := some "1", type := some "refresh", exp := some 999999999, iat := some 0 }

/-- An access-type payload whose `exp` is in the past at decode time 1000. -/
def payloadExpired : Payload :=
  { sub := some "1", type := some "access", exp := some 0, iat := some 0 }

/-- An access-type payload with subject `"1"` and a future expiry. -/
def payloadSub1 : Payload :=
  { sub := some "1", type := some "access", exp := some 1000, iat := some 0 }

/-- A valid access token for subject `"1"` under `cfgK`. -/
def tokSub1 : Token := .signed payloadSub1 "k"

/-- A valid access token with no `sub` claim. -/
def tokNoSub : Token :=
  .signed { sub := none, type := some "access", exp := some 1000, iat := some 0 } "k"

/-- A valid access token whose subject is not coercible to an integer. -/
def tokBadSub : Token :=
  .signed { sub := some "abc", type := some "access", exp := some 1000, iat := some 0 } "k"

/-- An active user with id 1. -/
def userActive : UserRec := { id := 1, is_active := true }

/-- An inactive user with id 1. -/
def userInactive : UserRec := { id := 1, is_active := false }

/-- A store with no users. -/
def dbEmpty : Int → Option UserRec := fun _ => none

/-- A store holding only the active user 1. -/
def dbActive : Int → Option UserRec := fun i => if i = 1 then some userActive else none

/-- A store holding only the inactive user 1. -/
def dbInactive : Int → Option UserRec := fun i => if i = 1 then some userInactive else none

/-- A four-character salt for the password fixtures. -/
def saltA : List Char := ['s', 'a', 'l', 't']

/-- 72 repetitions of `a` — exactly the bcrypt password limit. -/
def pw72 : String := String.mk (List.replicate 72 'a')

/-- 73 repetitions of `a` — one byte beyond the bcrypt password limit. -/
def pw73 : String := String.mk (List.replicate 73 'a')

/-! ## Helper lemmas -/

/-- Splitting at the first `$` of `salt ++ '$' :: rest` recovers `salt` and
`rest` when the salt is `$`-free. -/
theorem splitAtDollar_append (salt rest : List Char) (h : '$' ∉ salt) :
    splitAtDollar (salt ++ '$' :: rest) = some (salt, rest) := by
  induction salt with
  | nil => simp [splitAtDollar]
  | cons c cs ih =>
    have h1 : ¬ c = '$' := fun hc => h (by rw [hc]; exact List.mem_cons_self _ _)
    have h2 : '$' ∉ cs := fun hm => h (List.mem_cons_of_mem _ hm)
    simp [splitAtDollar, h1, ih h2]

/-- Parsing a produced hash string recovers its salt and digest. -/
theorem parseBcrypt_hashpwChars (pw : List Nat) (salt : List Char)
    (h : validSalt salt) :
    parseBcrypt (hashpwChars pw salt) = some (salt, digestChars (bcryptTruncate pw)) := by
  show splitAtDollar (salt ++ '$' :: digestChars (bcryptTruncate pw)) = _
  exact splitAtDollar_append _ _ h

/-- If the truncated byte encodings agree, verification succeeds. -/
theorem verify_password_of_trunc_eq (p1 p2 : String) (salt : List Char)
    (hs : validSalt salt)
    (h : bcryptTruncate (pwBytes p1) = bcryptTruncate (pwBytes p2)) :
    verify_password p1 (get_password_hash p2 salt) = true := by
  unfold verify_password get_password_hash bcrypt_checkpw bcrypt_hashpw
  rw [show (String.mk (hashpwChars (pwBytes p2) salt)).data
        = hashpwChars (pwBytes p2) salt from rfl]
  rw [parseBcrypt_hashpwChars _ _ hs]
  simp [hashpwChars, h]

/-- Block-code decomposition: equal `x`-blocks closed by `y` have equal
lengths and equal remainders. -/
theorem replicate_block_inj (x y : Char) (hxy : x ≠ y) :
    ∀ (a b : Nat) (l m : List Char),
      List.replicate a x ++ y :: l = List.replicate b x ++ y :: m →
      a = b ∧ l = m := by
  intro a
  induction a with
  | zero =>
    intro b l m hb
    cases b with
    | zero => simpa using hb
    | succ b =>
      rw [List.replicate_succ] at hb
      simp only [List.replicate, List.nil_append, List.cons_append, List.cons.injEq] at hb
      exact absurd hb.1 (fun hyx => hxy hyx.symm)
  | succ a ih =>
    intro b l m hb
    cases b with
    | zero =>
      rw [List.replicate_succ] at hb
      simp only [List.replicate, List.nil_append, List.cons_append, List.cons.injEq] at hb
      exact absurd hb.1 hxy
    | succ b =>
      rw [List.replicate_succ, List.replicate_succ] at hb
      simp only [List.cons_append, List.cons.injEq, true_and] at hb
      obtain ⟨h1, h2⟩ := ih b l m hb
      exact ⟨by omega, h2⟩

/-- The digest block code is injective. -/
theorem digestChars_injective :
    ∀ d1 d2 : List Nat, digestChars d1 = digestChars d2 → d1 = d2 := by
  intro d1
  induction d1 with
  | nil =>
    intro d2 h
    cases d2 with
    | nil => rfl
    | cons n t =>
      exfalso
      simp only [digestChars, List.map_nil, List.flatten_nil, List.map_cons,
        List.flatten_cons] at h
      cases n with
      | zero => simp at h
      | succ k => rw [List.replicate_succ] at h; simp at h
  | cons n t ih =>
    intro d2 h
    cases d2 with
    | nil =>
      exfalso
      simp only [digestChars, List.map_nil, List.flatten_nil, List.map_cons,
        List.flatten_cons] at h
      cases n with
      | zero => simp at h
      | succ k => rw [List.replicate_succ] at h; simp at h
    | cons n2 t2 =>
      simp only [digestChars, List.map_cons, List.flatten_cons, List.append_assoc,
        List.singleton_append] at h
      obtain ⟨h1, h2⟩ := replicate_block_inj '*' ',' (by decide) n n2 _ _ h
      have := ih t2 h2
      rw [h1, this]

/-- If the truncated byte encodings differ, verification fails. -/
theorem verify_password_of_trunc_ne (p1 p2 : String) (salt : List Char)
    (hs : validSalt salt)
    (h : bcryptTruncate (pwBytes p1) ≠ bcryptTruncate (pwBytes p2)) :
    verify_password p1 (get_password_hash p2 salt) = false := by
  unfold verify_password get_password_hash bcrypt_checkpw bcrypt_hashpw
  simp only [String.data]
  rw [parseBcrypt_hashpwChars _ _ hs]
  simp only [decide_eq_false_iff_not]
  intro heq
  apply h
  unfold hashpwChars at heq
  simp only [List.cons.injEq, true_and] at heq
  have h2 := List.append_inj_right heq rfl
  simp only [List.cons.injEq, true_and] at h2
  exact digestChars_injective _ _ h2

/-! ## Claim theorems -/

/-- C1: the claim says two `create_access_token` calls for the same subject
in the same millisecond (same current time, default TTL) always return
distinct strings. This theorem evaluates the code at a failing input: two
calls at the same instant with the distinct jitter draws 0.001s and 0.002s
produce the SAME token string, because the JWT library truncates the
`exp`/`iat` datetimes to whole epoch seconds, discarding the sub-second
jitter (and the `randint(1, 999)` draws can repeat besides). -/
theorem create_access_token_same_tick_collision :
    (1 : Nat) ≠ 2 ∧
    create_access_token cfgK (some (.vint 7)) none 123456 1 =
      create_access_token cfgK (some (.vint 7)) none 123456 2 :=
  ⟨by decide, rfl⟩

/-- C2 counterexample: a well-formed token signed with a DIFFERENT secret
whose embedded type mismatches the expected type fails with
`InvalidTokenType` (raised by the signature-free pre-check), not with the
credential-invalid error — refuting "never with ... the InvalidTokenType
error, whatever the token's embedded type ... is". -/
theorem decode_token_wrong_secret_type_error :
    decode_token cfgK (Token.signed payloadRefresh "other") (some "access") 0 =
      .error (.invalidTokenType "access") ∧
    AuthError.invalidTokenType "access" ≠ AuthError.couldNotValidate :=
  ⟨rfl, by decide⟩

/-- C2 amended: a token signed with a different secret never fails with
`Expired`; it fails with the credential-invalid error unless an expected
type is supplied and the embedded type differs, in which case the
unverified pre-check reports `InvalidTokenType` first. -/
theorem decode_token_wrong_secret (cfg : AuthConfig) (key sigKey : String)
    (p : Payload) (tt : Option String) (nowSec : Nat)
    (hkey : cfg.secretKey = some key) (hk : key ≠ "") (hsig : sigKey ≠ key) :
    decode_token cfg (.signed p sigKey) tt nowSec =
      .error (if typeMismatch tt p.type then .invalidTokenType (tt.getD "")
              else .couldNotValidate) ∧
    decode_token cfg (.signed p sigKey) tt nowSec ≠ .error .tokenExpired := by
  unfold decode_token
  rw [hkey]
  by_cases hm : typeMismatch tt p.type
  · simp [hk, hm]
  · simp [hk, hm, hsig]

/-- C2 witness for `decode_token_wrong_secret`. -/
theorem decode_token_wrong_secret_witness :
    decode_token cfgK (Token.signed payloadSub1 "other") none 0 =
      .error (if typeMismatch none payloadSub1.type
              then .invalidTokenType (Option.getD none "")
              else .couldNotValidate) ∧
    decode_token cfgK (Token.signed payloadSub1 "other") none 0 ≠
      .error .tokenExpired :=
  decode_token_wrong_secret cfgK "k" "other" payloadSub1 none 0 rfl
    (by decide) (by decide)

/-- C3 counterexample: a token whose `exp` is long past but whose signature
does not verify under the process secret fails with the credential-invalid
error, not `Expired` — refuting "regardless of whether the token's
signature is valid" (the library verifies the signature before the expiry
claim). -/
theorem decode_token_expired_wrong_secret :
    decode_token cfgK (Token.signed payloadExpired "other") none 1000 =
      .error .couldNotValidate ∧
    AuthError.couldNotValidate ≠ AuthError.tokenExpired :=
  ⟨rfl, by decide⟩

/-- C3 amended: a token whose `exp` claim is in the past fails with
`Expired` provided its signature is valid under the process secret and its
embedded type does not mismatch the expected type (a wrong signature gives
the credential-invalid error instead, and a type mismatch is reported as
`InvalidTokenType` before expiry is ever checked). -/
theorem decode_token_past_exp_expired (cfg : AuthConfig) (key : String)
    (p : Payload) (tt : Option String) (nowSec e : Nat)
    (hkey : cfg.secretKey = some key) (hk : key ≠ "")
    (hexp : p.exp = some e) (hlt : e < nowSec)
    (hty : typeMismatch tt p.type = false) :
    decode_token cfg (.signed p key) tt nowSec = .error .tokenExpired := by
  unfold decode_token
  rw [hkey]
  simp [hk, hty, expired, hexp, hlt]

/-- C3 witness for `decode_token_past_exp_expired`. -/
theorem decode_token_past_exp_expired_witness :
    decode_token cfgK (Token.signed payloadExpired "k") (some "access") 1000 =
      .error .tokenExpired :=
  decode_token_past_exp_expired cfgK "k" payloadExpired (some "access") 1000 0
    rfl (by decide) rfl (by decide) (by decide)

/-- C4: decoding a token produced by `create_access_token` for subject `s`
with expected type `"access"` succeeds (before its expiry) and returns the
string serialization of `s` as subject; decoding the same token with
expected type `"refresh"` fails with `InvalidTokenType`. -/
theorem create_access_token_decode_roundtrip (cfg : AuthConfig) (key : String)
    (sub : PyVal) (deltaMs : Option Nat) (nowMs randMs nowSec : Nat)
    (tok : Token)
    (hkey : cfg.secretKey = some key) (hk : key ≠ "")
    (htok : create_access_token cfg (some sub) deltaMs nowMs randMs = some tok)
    (hnow : nowSec ≤ accessExpSec cfg deltaMs nowMs randMs) :
    decode_token cfg tok (some "access") nowSec =
      .ok { sub := some (pyStr sub), type := some "access",
            exp := some (accessExpSec cfg deltaMs nowMs randMs),
            iat := some (nowMs / 1000) } ∧
    decode_token cfg tok (some "refresh") nowSec =
      .error (.invalidTokenType "refresh") := by
  unfold create_access_token at htok
  rw [hkey] at htok
  simp only [Option.some.injEq] at htok
  subst htok
  unfold decode_token
  rw [hkey]
  constructor
  · simp [hk, typeMismatch, expired, Nat.not_lt.mpr hnow]
  · simp [hk, typeMismatch]

/-- C4 witness for `create_access_token_decode_roundtrip`. -/
theorem create_access_token_decode_roundtrip_witness :
    decode_token cfgK
        (Token.signed
          { sub := some (pyStr (.vint 42)), type := some "access",
            exp := some (accessExpSec cfgK none 0 1), iat := some (0 / 1000) }
          "k")
        (some "access") 0 =
      .ok { sub := some (pyStr (.vint 42)), type := some "access",
            exp := some (accessExpSec cfgK none 0 1), iat := some (0 / 1000) } ∧
    decode_token cfgK
        (Token.signed
          { sub := some (pyStr (.vint 42)), type := some "access",
            exp := some (accessExpSec cfgK none 0 1), iat := some (0 / 1000) }
          "k")
        (some "refresh") 0 =
      .error (.invalidTokenType "refresh") :=
  create_access_token_decode_roundtrip cfgK "k" (.vint 42) none 0 1 0 _
    rfl (by decide) rfl (by decide)

/-- C5: the Identity Resolver's error mapping, evaluated branch by branch.
Missing subject and non-coercible subject fail as invalid-credential 401s,
an inactive user fails as `InactiveUser`, an active user is returned — but
a subject with NO matching user record fails with the 500
`"Database error"` response, not the claimed `UserNotFound`: the
`except Exception` block of lines 275-281 catches the module's own
`HTTPException("User not found")` (an `Exception` subclass) raised at line
270 and replaces it. -/
theorem get_current_user_error_mapping :
    get_current_user cfgK tokNoSub 0 dbActive = .error .missingUserId ∧
    get_current_user cfgK tokBadSub 0 dbActive = .error .invalidUserIdFormat ∧
    get_current_user cfgK tokSub1 0 dbEmpty = .error .databaseError ∧
    errorStatus .databaseError = 500 ∧
    errorDetail .databaseError = "Database error" ∧
    errorDetail .databaseError ≠ "User not found" ∧
    get_current_user cfgK tokSub1 0 dbInactive = .error .inactiveUser ∧
    get_current_user cfgK tokSub1 0 dbActive = .ok userActive :=
  ⟨rfl, rfl, rfl, rfl, rfl, by decide, rfl, rfl⟩

/-- C6 counterexample: with `JWT_SECRET` absent from the environment, module
start-up SUCCEEDS (yielding a configuration with no secret) — refuting "the
process fails at start". -/
theorem initAuthModule_missing_secret_starts :
    initAuthModule (fun _ => none) =
      .ok { secretKey := none, accessTokenExpireMinutes := 30,
            refreshTokenExpireDays := 7 } := rfl

/-- C6 amended: absence of the signing secret is not detected at start-up;
the module loads with `SECRET_KEY = None` and every subsequent
`decode_token` call fails at runtime with the 500 configuration error. -/
theorem missing_secret_fails_at_first_decode (env : String → Option String)
    (cfg : AuthConfig) (tok : Token) (tt : Option String) (nowSec : Nat)
    (henv : env "JWT_SECRET" = none) (hinit : initAuthModule env = .ok cfg) :
    cfg.secretKey = none ∧ decode_token cfg tok tt nowSec = .error .configError := by
  unfold initAuthModule at hinit
  have hsk : cfg.secretKey = none := by
    split at hinit
    · exact absurd hinit (by simp)
    · split at hinit
      · exact absurd hinit (by simp)
      · simp only [Except.ok.injEq] at hinit
        subst hinit
        simpa using henv
  refine ⟨hsk, ?_⟩
  unfold decode_token
  rw [hsk]

/-- C6 witness for `missing_secret_fails_at_first_decode`. -/
theorem missing_secret_fails_at_first_decode_witness :
    cfgNoSecret.secretKey = none ∧
    decode_token cfgNoSecret (Token.malformed "x") none 0 = .error .configError :=
  missing_secret_fails_at_first_decode (fun _ => none) cfgNoSecret
    (Token.malformed "x") none 0 rfl rfl

/-- C7 counterexample: the 73-`a` password is accepted by the hash of the
distinct 72-`a` password, because bcrypt ignores every password byte beyond
the 72nd — refuting "for every pair of distinct passwords p1 != p2,
verify(p1, hash(p2)) returns false". -/
theorem verify_password_distinct_accepted :
    pw73 ≠ pw72 ∧
    verify_password pw73 (get_password_hash pw72 saltA) = true :=
  ⟨by decide, verify_password_of_trunc_eq pw73 pw72 saltA (by decide) (by decide)⟩

/-- C7 amended: `verify(p, hash(p))` is true for every password, and
`verify(p1, hash(p2))` is false whenever the UTF-8 encodings of `p1` and
`p2` differ within their first 72 bytes (in the idealised collision-free
digest model); distinct passwords agreeing on their first 72 bytes are
accepted by each other's hashes. -/
theorem verify_password_spec (p p1 p2 : String) (salt : List Char)
    (hs : validSalt salt)
    (hdiff : bcryptTruncate (pwBytes p1) ≠ bcryptTruncate (pwBytes p2)) :
    verify_password p (get_password_hash p salt) = true ∧
    verify_password p1 (get_password_hash p2 salt) = false :=
  ⟨verify_password_of_trunc_eq p p salt hs rfl,
   verify_password_of_trunc_ne p1 p2 salt hs hdiff⟩

/-- C7 witness for `verify_password_spec`. -/
theorem verify_password_spec_witness :
    verify_password "S3cret123" (get_password_hash "S3cret123" saltA) = true ∧
    verify_password "alpha" (get_password_hash "beta" saltA) = false :=
  verify_password_spec "S3cret123" "alpha" "beta" saltA (by decide) (by decide)

/-- C8: `verify_password` is a total boolean function (the `except` clause
of lines 42-44 converts every exception into `False`); on a malformed
stored hash, where `bcrypt.checkpw` raises `ValueError("Invalid salt")`,
it returns `false`. -/
theorem verify_password_malformed_hash (p h : String)
    (hm : parseBcrypt h.data = none) :
    bcrypt_checkpw (pwBytes p) h = .error "Invalid salt" ∧
    verify_password p h = false := by
  constructor
  · unfold bcrypt_checkpw
    rw [hm]
  · unfold verify_password bcrypt_checkpw
    rw [hm]

/-- C8 witness for `verify_password_malformed_hash`. -/
theorem verify_password_malformed_hash_witness :
    bcrypt_checkpw (pwBytes "pw") "garbage" = .error "Invalid salt" ∧
    verify_password "pw" "garbage" = false :=
  verify_password_malformed_hash "pw" "garbage" rfl

/-- C9: every user record returned by `get_current_user` is active (the
inactive branch of lines 283-288 filters the rest), so
`get_current_active_user` returns such a user unchanged and its own
inactive-user branch is unreachable on resolver output. -/
theorem get_current_user_active_invariant (cfg : AuthConfig) (token : Token)
    (nowSec : Nat) (db : Int → Option UserRec) (u : UserRec)
    (h : get_current_user cfg token nowSec db = .ok u) :
    u.is_active = true ∧ get_current_active_user u = .ok u := by
  unfold get_current_user at h
  repeat' split at h
  all_goals simp_all [get_current_active_user]

/-- C9 witness for `get_current_user_active_invariant`. -/
theorem get_current_user_active_invariant_witness :
    userActive.is_active = true ∧
    get_current_active_user userActive = .ok userActive :=
  get_current_user_active_invariant cfgK tokSub1 0 dbActive userActive rfl

/-- C10: with no expected token type, `decode_token` performs no type
discrimination: every well-formed token signed with the process secret and
not yet expired decodes successfully, whatever its `type` claim (present,
`"access"`, `"refresh"`, or absent). -/
theorem decode_token_no_type_discrimination (cfg : AuthConfig) (key : String)
    (p : Payload) (nowSec : Nat)
    (hkey : cfg.secretKey = some key) (hk : key ≠ "")
    (hexp : expired p nowSec = false) :
    decode_token cfg (.signed p key) none nowSec = .ok p := by
  unfold decode_token
  rw [hkey]
  simp [hk, typeMismatch, hexp]

/-- C10 witness for `decode_token_no_type_discrimination` (a refresh-type
token accepted with no expected type). -/
theorem decode_token_no_type_discrimination_witness :
    decode_token cfgK (Token.signed payloadRefresh "k") none 0 =
      .ok payloadRefresh :=
  decode_token_no_type_discrimination cfgK "k" payloadRefresh 0 rfl
    (by decide) rfl
